import Mathlib

/-
Verification of the codemanbot Twitch bot's command router, session state,
raffle cooldown gate, persistent counter store and reply chunker.

The Python source is shallowly embedded: strings are lists of characters,
`str.split()` / `str.lower()` / `str.startswith` are modelled by executable
functions below, handlers become pure state-transition functions, and the
JSON counter file becomes an association list threaded through the handlers.
-/

namespace Codemanbot

/-- Model of the ASCII whitespace characters recognised by Python's
`str.split()` and `str.isspace()` (sufficient for the chat messages here). -/
def isWs (c : Char) : Bool :=
  c == ' ' || c == '\t' || c == '\n' || c == '\r' || c == '\x0b' || c == '\x0c'

/-- Negation of `isWs`, used when scanning for the end of a token. -/
def nonWs (c : Char) : Bool := !isWs c

/-- Model of Python `str.lower()` (ASCII letters, which is all the
router's fixed word lists use). -/
def pyLower (s : List Char) : List Char := s.map Char.toLower

/-- Accumulator loop for `pySplit`: `acc` holds the reversed current token. -/
def pySplitAux : List Char → List Char → List (List Char)
  | [], acc => if acc.isEmpty then [] else [acc.reverse]
  | c :: cs, acc =>
    if isWs c then
      if acc.isEmpty then pySplitAux cs [] else acc.reverse :: pySplitAux cs []
    else pySplitAux cs (c :: acc)

/-- Model of Python `str.split()` with no separator argument: split on runs
of whitespace, never producing empty tokens. -/
def pySplit (s : List Char) : List (List Char) := pySplitAux s []

/-- The greedy accumulation loop of `CodemanTwitchBot.send_multiple_respones`
(src/src/twitchbot.py): `temp` is the chunk under construction; when adding
the next word would reach 450 characters the chunk is flushed to the queue
and `temp` is reset to the empty string (the current word is not carried
over), mirroring the source line for line.  Returns the queue contents and
the final unflushed `temp`. -/
def chunkLoop : List (List Char) → List (List Char) → List Char →
    List (List Char) × List Char
  | [], chunks, temp => (chunks, temp)
  | w :: ws, chunks, temp =>
    if temp.length + w.length < 450 then
      chunkLoop ws chunks (temp ++ w ++ [' '])
    else
      chunkLoop ws (chunks ++ [temp]) []

/-- Model of `CodemanTwitchBot.send_multiple_respones`
(src/src/twitchbot.py lines 448-474): split the reply on whitespace, run the
greedy chunk loop, then emit each queued chunk prefixed with a
`REPLY (i/N): ` counter.  The trailing `temp` left by the loop is never
queued, exactly as in the source. -/
def send_multiple_respones (response : List Char) : List (List Char) :=
  let words := pySplit response
  let chunks := (chunkLoop words [] []).1
  let size := chunks.length
  ((List.range size).zip chunks).map
    (fun p => "REPLY (".toList ++ (toString (p.1 + 1)).toList ++ "/".toList
      ++ (toString size).toList ++ "): ".toList ++ p.2)

/-- An 11-character word used to build the 1200-character test reply. -/
def c1word : List Char := List.replicate 11 'a'

/-- A 12-character final word for the 1200-character test reply. -/
def c1last : List Char := List.replicate 12 'b'

/-- A concrete 1200-character whitespace-tokenizable reply: 99 words of 11
characters and one word of 12 characters, single-space separated. -/
def c1input : List Char :=
  List.intercalate [' '] (List.replicate 99 c1word ++ [c1last])

/-- Model of the mutable fields `TwitchBot.__init__` (src/twitchbot.py)
creates on the bot instance.  `raffle_time` starts as Python `None`, hence
`Option`. -/
structure TwitchBotState where
  session_deaths : Int
  lifetime_deaths : Int
  session_chalked : Int
  lifetime_chalked : Int
  dmz_squad_pr : Int
  recent_raffle : Bool
  raffle_time : Option Int
  pocus_troll : Bool
  deriving DecidableEq

/-- The field values assigned in `TwitchBot.__init__`. -/
def initState : TwitchBotState :=
  { session_deaths := 0, lifetime_deaths := 0, session_chalked := 0,
    lifetime_chalked := 0, dmz_squad_pr := 0, recent_raffle := false,
    raffle_time := none, pocus_troll := false }

/-- `self.raffle_cooldown_time = 15  # minutes` from `TwitchBot.__init__`. -/
def raffle_cooldown_time : Int := 15

/-- Model of the parsed contents of `data.json`: a JSON object with
integer-valued keys, as an association list. -/
abbrev CounterData := List (List Char × Int)

/-- Key lookup in the counter record: `data[k]`, `none` when the key is
absent (Python raises `KeyError`). -/
def lookup (d : CounterData) (k : List Char) : Option Int :=
  (d.find? (fun p => p.1 == k)).map (fun p => p.2)

/-- Key assignment in the counter record: `data[k] = v` (replaces the
existing binding in place, appends when absent). -/
def setKey (d : CounterData) (k : List Char) (v : Int) : CounterData :=
  match d with
  | [] => [(k, v)]
  | (k', v') :: rest =>
    if k' == k then (k, v) :: rest else (k', v') :: setKey rest k v

/-- Model of `TwitchBot.event_ready` (src/twitchbot.py lines 89-99): parse
`data.json` (`none` input = file missing or malformed, which raises), then
read `data["deaths"]`, `data["chalked"]`, `data["dmz_squad_pr_kills"]` into
the lifetime fields; a missing key raises `KeyError` (`none` result).  No
default value is ever substituted. -/
def event_ready (file : Option CounterData) (s : TwitchBotState) :
    Option TwitchBotState :=
  match file with
  | none => none
  | some data =>
    match lookup data "deaths".toList, lookup data "chalked".toList,
        lookup data "dmz_squad_pr_kills".toList with
    | some d, some c, some p =>
      some { s with lifetime_deaths := d, lifetime_chalked := c,
                    dmz_squad_pr := p }
    | _, _, _ => none

/-- Model of `TwitchBot.died` (src/twitchbot.py lines 214-239): increment the
session and lifetime death counters, then read `data.json`, set
`data["deaths"]` to the new lifetime value and write the record back. -/
def died (s : TwitchBotState) (data : CounterData) :
    TwitchBotState × CounterData :=
  let s' := { s with session_deaths := s.session_deaths + 1,
                     lifetime_deaths := s.lifetime_deaths + 1 }
  (s', setKey data "deaths".toList s'.lifetime_deaths)

/-- Model of `TwitchBot.chalked` (src/twitchbot.py lines 276-299): increment
the session and lifetime chalked counters, then write the new lifetime value
through to `data["chalked"]`. -/
def chalked (s : TwitchBotState) (data : CounterData) :
    TwitchBotState × CounterData :=
  let s' := { s with session_chalked := s.session_chalked + 1,
                     lifetime_chalked := s.lifetime_chalked + 1 }
  (s', setKey data "chalked".toList s'.lifetime_chalked)

/-- State of `CodemanTwitchBot` (src/src/twitchbot.py) relevant to the `win`
command: the class only has a *session* win counter, no lifetime one. -/
structure CodemanTwitchBotState where
  session_wins : Int
  deriving DecidableEq

/-- Model of `CodemanTwitchBot.win` (src/src/twitchbot.py lines 338-356):
increment `session_wins` and rewrite the SESSION_WINS_FILE companion text
file with `wins: {session_wins}`.  The persistent counter record
(STATS_FILE) is neither read nor written by this handler; it is threaded
through unchanged to make that visible.  The returned string is the new
contents of the companion file. -/
def win (s : CodemanTwitchBotState) (record : CounterData) :
    CodemanTwitchBotState × CounterData × List Char :=
  let s' := { s with session_wins := s.session_wins + 1 }
  (s', record, "wins: ".toList ++ (toString s'.session_wins).toList)

/-- Outcome of the `dmzpr` handler. -/
inductive DmzOut where
  | rejected (current : Int)
  | updated (oldPr newPr : Int)
  deriving DecidableEq

/-- Model of `TwitchBot.update_dmz_pr` (src/twitchbot.py lines 241-274),
taking the already-parsed submitted value `dmz_pr`: if it does not exceed
the current squad PR, reply with a rejection and change nothing; otherwise
write the new value to `data["dmz_squad_pr_kills"]`, announce old and new
values, and update the in-memory PR. -/
def update_dmz_pr (s : TwitchBotState) (data : CounterData) (dmz_pr : Int) :
    TwitchBotState × CounterData × DmzOut :=
  if dmz_pr ≤ s.dmz_squad_pr then
    (s, data, DmzOut.rejected s.dmz_squad_pr)
  else
    ({ s with dmz_squad_pr := dmz_pr },
     setKey data "dmz_squad_pr_kills".toList dmz_pr,
     DmzOut.updated s.dmz_squad_pr dmz_pr)

/-- Outcome of the `raffle` handler.  `noneTypeError` marks the state where
`recent_raffle` is true but `raffle_time` is still `None`, on which the
Python subtraction would raise; it is unreachable from `initState`. -/
inductive RaffleOut where
  | triggered
  | rejected (remaining : Int)
  | noneTypeError
  deriving DecidableEq

/-- Model of `TwitchBot.raffle` (src/twitchbot.py lines 184-212).  `tnow` is
the `datetime.now()` read at entry and `tset` the second `datetime.now()`
used when resetting the timer (in seconds); `//` on the elapsed seconds is
Python floor division, hence `Int.fdiv`. -/
def raffle (s : TwitchBotState) (tnow tset : Int) :
    TwitchBotState × RaffleOut :=
  if s.recent_raffle then
    match s.raffle_time with
    | none => (s, RaffleOut.noneTypeError)
    | some t0 =>
      let elapsed := Int.fdiv (tnow - t0) 60
      if raffle_cooldown_time ≤ elapsed then
        ({ s with recent_raffle := true, raffle_time := some tset },
         RaffleOut.triggered)
      else
        (s, RaffleOut.rejected (raffle_cooldown_time - elapsed))
  else
    ({ s with recent_raffle := true, raffle_time := some tset },
     RaffleOut.triggered)

/-- The recorded times of the successful raffle triggers produced by a
sequence of raffle invocations, each invocation given as the pair of its two
`datetime.now()` reads. -/
def raffleTriggers (s : TwitchBotState) : List (Int × Int) → List Int
  | [] => []
  | (tnow, tset) :: rest =>
    match raffle s tnow tset with
    | (s', RaffleOut.triggered) => tset :: raffleTriggers s' rest
    | (s', _) => raffleTriggers s' rest

/-- An inbound chat message as the router sees it: the echo flag,
`author.name` and `content`. -/
structure Msg where
  echo : Bool
  author : List Char
  content : List Char
  deriving DecidableEq

/-- Router configuration: the bot's nick and the logging flag passed to
`TwitchBot.__init__`. -/
structure BotCfg where
  nick : List Char
  logging : Bool

/-- The command registration table that `TwitchBot`'s `@commands.command`
decorators build at class creation (src/twitchbot.py): handler name paired
with the command's names (its `name` and any `aliases`). -/
def registry : List (List Char × List (List Char)) :=
  [("eight_ball".toList, ["8ball".toList]),
   ("troll".toList, ["troll".toList]),
   ("hello".toList, ["hello".toList]),
   ("raffle".toList, ["raffle".toList]),
   ("died".toList, ["died".toList, "dead".toList]),
   ("update_dmz_pr".toList, ["dmzpr".toList]),
   ("chalked".toList, ["chalked".toList]),
   ("guscam".toList, ["guscam".toList]),
   ("treats_for_gus".toList, ["#treatsforgus".toList]),
   ("discord".toList, ["discord".toList]),
   ("command_help".toList, ["commands".toList]),
   ("ai_response".toList, ["@therealcodemanbot".toList]),
   ("insult_me".toList, ["insultme".toList])]

/-- Modelled from the spec: command dispatch is performed by the external
twitchio library (`commands.Bot.handle_commands`), whose code is not part of
this repository.  Per the spec's router contract: after normalization, if
the text begins with the configured command prefix character (`!` here)
followed by a registered command name or one of its aliases, that command's
handler is invoked with the remainder as argument; matching is
case-insensitive; exactly one handler runs per message; if no registered
name or alias matches, the message is dropped.  Returns the name of the
handler invoked, if any. -/
def handle_commands (content : List Char) : Option (List Char) :=
  match content with
  | '!' :: rest =>
    let name := pyLower (rest.takeWhile nonWs)
    (registry.find? (fun p => p.2.contains name)).map (fun p => p.1)
  | _ => none

/-- The fixed greeting-word list of `TwitchBot.event_message`
(src/twitchbot.py lines 123-132), kept verbatim: the multi-word entries can
never equal a single whitespace-delimited token. -/
def greetings : List (List Char) :=
  ["hello".toList, "hi".toList, "sup".toList, "what's up".toList,
   "whats up".toList, "what up".toList, "wat up".toList, "yo".toList]

/-- Model of Python's `needle in haystack` substring test. -/
def isSubstring (needle : List Char) : List Char → Bool
  | [] => needle.isEmpty
  | c :: cs => needle.isPrefixOf (c :: cs) || isSubstring needle cs

/-- The condition of the pocus_jet rewrite in `TwitchBot.event_message`
(src/twitchbot.py line 113): the troll flag is still unset and the lowered
author name contains `pocus_jet`. -/
def pocus_rewrite_applies (s : TwitchBotState) (m : Msg) : Bool :=
  !s.pocus_troll && isSubstring "pocus_jet".toList (pyLower m.author)

/-- What one `event_message` call produced: the resulting bot state, the
line appended to the session log (if logging is on), the handler dispatched
by `handle_commands` (if any), and whether `content.split()[0]` raised
`IndexError` (in which case nothing was dispatched). -/
structure EvtResult where
  state : TwitchBotState
  logged : Option (List Char)
  dispatched : Option (List Char)
  indexError : Bool
  deriving DecidableEq

/-- Model of `TwitchBot.event_message` (src/twitchbot.py lines 101-140):
return immediately on echo messages; otherwise apply the one-shot pocus_jet
rewrite, append to the session log when logging, then index the first
whitespace-delimited token of the lowered content (raising `IndexError`
when there is none) and rewrite greeting / bot-mention / hashtag messages
by prefixing `!` to the lowered content before relaying the message to
`handle_commands`. -/
def event_message (cfg : BotCfg) (s : TwitchBotState) (m : Msg) : EvtResult :=
  if m.echo then ⟨s, none, none, false⟩
  else
    let hit := pocus_rewrite_applies s m
    let content1 := if hit then "!troll".toList else m.content
    let s1 := if hit then { s with pocus_troll := true } else s
    let logged := if cfg.logging then some (m.author ++ ": ".toList ++ content1)
      else none
    let content := pyLower content1
    match pySplit content with
    | [] => ⟨s1, logged, none, true⟩
    | tok :: _ =>
      let content2 :=
        if greetings.contains tok then '!' :: content
        else if ('@' :: pyLower cfg.nick).isPrefixOf content then '!' :: content
        else if "#treatsforgus".toList.isPrefixOf content then '!' :: content
        else content1
      ⟨s1, logged, handle_commands content2, false⟩

/-- The bot state left after processing a list of inbound messages. -/
def runState (cfg : BotCfg) (s : TwitchBotState) : List Msg → TwitchBotState
  | [] => s
  | m :: ms => runState cfg (event_message cfg s m).state ms

/-- How many messages of a run get their content replaced by `!troll` by the
pocus_jet rewrite. -/
def countPocus (cfg : BotCfg) (s : TwitchBotState) : List Msg → Nat
  | [] => 0
  | m :: ms =>
    (if !m.echo && pocus_rewrite_applies s m then 1 else 0)
      + countPocus cfg (event_message cfg s m).state ms

/-- Lowercasing is the identity on whitespace characters. -/
theorem toLower_ws {c : Char} (h : isWs c = true) : c.toLower = c := by
  simp only [isWs, Bool.or_eq_true, beq_iff_eq] at h
  rcases h with ((((rfl | rfl) | rfl) | rfl) | rfl) | rfl <;> decide

/-- `str.lower()` leaves a whitespace-only string unchanged. -/
theorem pyLower_all_ws : ∀ l : List Char, (∀ c ∈ l, isWs c = true) →
    pyLower l = l
  | [], _ => rfl
  | c :: cs, h => by
    have hc := toLower_ws (h c (List.mem_cons_self c cs))
    have ih := pyLower_all_ws cs (fun x hx => h x (List.mem_cons_of_mem c hx))
    simp only [pyLower, List.map_cons, hc]
    simpa [pyLower] using ih

/-- `str.split()` of a whitespace-only string is the empty token list. -/
theorem pySplit_all_ws : ∀ l : List Char, (∀ c ∈ l, isWs c = true) →
    pySplit l = []
  | [], _ => rfl
  | c :: cs, h => by
    have hc := h c (List.mem_cons_self c cs)
    have ih := pySplit_all_ws cs (fun x hx => h x (List.mem_cons_of_mem c hx))
    simp only [pySplit, pySplitAux, hc, if_true, List.isEmpty_nil] at ih ⊢
    exact ih

/-- `str.split()` of the lowercasing of a whitespace-only string is empty. -/
theorem pySplit_pyLower_all_ws (l : List Char) (h : ∀ c ∈ l, isWs c = true) :
    pySplit (pyLower l) = [] := by
  rw [pyLower_all_ws l h]; exact pySplit_all_ws l h

/-- After `data[k] = v`, reading `data[k]` yields `v`. -/
theorem lookup_setKey : ∀ (d : CounterData) (k : List Char) (v : Int),
    lookup (setKey d k v) k = some v
  | [], k, v => by simp [setKey, lookup]
  | (k', v') :: rest, k, v => by
    by_cases h : k' == k
    · simp [setKey, lookup, h]
    · simp only [setKey, h, if_false, Bool.false_eq_true]
      simp only [lookup, List.find?, h]
      exact lookup_setKey rest k v

/-- A floored elapsed-minutes reading of at least the cooldown means at
least `cooldownMinutes * 60` seconds have elapsed. -/
theorem cooldown_seconds {x : Int}
    (h : raffle_cooldown_time ≤ Int.fdiv x 60) :
    raffle_cooldown_time * 60 ≤ x := by
  rw [Int.fdiv_eq_ediv] at h
  · unfold raffle_cooldown_time at *; omega
  · norm_num

set_option maxRecDepth 100000 in
/-- C1: on the concrete 1200-character reply `c1input` (100 tokens, none
over 450 characters), the chunker of `send_multiple_respones` emits only 2
chunks, and the chunk bodies carry only 74 of the 100 input tokens: the
token at each chunk boundary is dropped and the trailing partial chunk is
never queued, so the concatenation of the chunks does not reproduce the
original token sequence and fewer than 3 chunks are produced. -/
theorem c1_chunker_drops_tokens :
    c1input.length = 1200 ∧
    (∀ w ∈ pySplit c1input, w.length ≤ 450) ∧
    (pySplit c1input).length = 100 ∧
    (send_multiple_respones c1input).length = 2 ∧
    (pySplit (List.intercalate [' ']
      (chunkLoop (pySplit c1input) [] []).1)).length = 74 := by
  decide

/-- C8: an inbound message with `echo == true` makes `event_message` return
immediately: the bot state is unchanged, nothing is logged, no handler is
dispatched and no exception is raised. -/
theorem c8_echo_never_dispatched (cfg : BotCfg) (s : TwitchBotState) (m : Msg)
    (h : m.echo = true) :
    event_message cfg s m = ⟨s, none, none, false⟩ := by
  simp [event_message, h]

/-- C8 witness: a concrete echo message is ignored whole. -/
theorem c8_witness :
    event_message ⟨"therealcodemanbot".toList, true⟩ initState
      ⟨true, "bot".toList, "!died".toList⟩ = ⟨initState, none, none, false⟩ :=
  c8_echo_never_dispatched _ _ _ rfl

/-- C4: a raffle invocation inside the cooldown window (floored elapsed
minutes below `raffle_cooldown_time`) replies with the remaining wait time
`raffle_cooldown_time - elapsed` and leaves the whole state, in particular
`raffle_time`, unchanged. -/
theorem c4_raffle_rejection_keeps_timer (s : TwitchBotState)
    (tnow tset t0 : Int) (hr : s.recent_raffle = true)
    (ht : s.raffle_time = some t0)
    (hcool : Int.fdiv (tnow - t0) 60 < raffle_cooldown_time) :
    raffle s tnow tset =
      (s, RaffleOut.rejected (raffle_cooldown_time - Int.fdiv (tnow - t0) 60)) := by
  simp [raffle, hr, ht, not_le.mpr hcool]

/-- C4 witness: with a trigger recorded at time 0, an invocation 600 seconds
later (10 elapsed minutes, cooldown 15) is rejected with 5 minutes remaining
and the recorded trigger time stays 0. -/
theorem c4_witness :
    raffle { initState with recent_raffle := true, raffle_time := some 0 }
      600 600 =
      ({ initState with recent_raffle := true, raffle_time := some 0 },
       RaffleOut.rejected 5) := by
  have h := c4_raffle_rejection_keeps_timer
    { initState with recent_raffle := true, raffle_time := some 0 }
    600 600 0 rfl rfl (by decide)
  rw [h]; decide

/-- C6: a `dmzpr` submission not exceeding the current squad PR is rejected
with the state and the persisted record unchanged; a strictly greater value
updates both the persisted `dmz_squad_pr_kills` key and the in-memory PR. -/
theorem c6_dmzpr_update (s : TwitchBotState) (data : CounterData) (v : Int) :
    (v ≤ s.dmz_squad_pr →
      update_dmz_pr s data v = (s, data, DmzOut.rejected s.dmz_squad_pr)) ∧
    (s.dmz_squad_pr < v →
      update_dmz_pr s data v =
        ({ s with dmz_squad_pr := v },
         setKey data "dmz_squad_pr_kills".toList v,
         DmzOut.updated s.dmz_squad_pr v) ∧
      lookup (update_dmz_pr s data v).2.1 "dmz_squad_pr_kills".toList
        = some v) := by
  constructor
  · intro h; simp [update_dmz_pr, h]
  · intro h
    have hne := not_le.mpr h
    constructor
    · simp [update_dmz_pr, hne]
    · simp only [update_dmz_pr, hne, if_false]
      exact lookup_setKey data _ v

/-- C6 witness: with current PR 10, submitting 7 is rejected and changes
nothing; submitting 21 updates the record key and the in-memory PR to 21. -/
theorem c6_witness :
    (update_dmz_pr { initState with dmz_squad_pr := 10 } [] 7 =
      ({ initState with dmz_squad_pr := 10 }, [], DmzOut.rejected 10)) ∧
    (update_dmz_pr { initState with dmz_squad_pr := 10 } [] 21 =
      ({ initState with dmz_squad_pr := 21 },
       [("dmz_squad_pr_kills".toList, 21)], DmzOut.updated 10 21)) :=
  ⟨(c6_dmzpr_update { initState with dmz_squad_pr := 10 } [] 7).1 (by decide),
   ((c6_dmzpr_update { initState with dmz_squad_pr := 10 } [] 21).2
     (by decide)).1⟩

/-- C7: startup loading fails (no default substituted) when the counter file
is missing or malformed (`none`) or lacks any of the keys `deaths`,
`chalked`, `dmz_squad_pr_kills`; on success every lifetime field is
initialized from the file. -/
theorem c7_event_ready_load (s : TwitchBotState) :
    event_ready none s = none ∧
    (∀ data : CounterData,
      (lookup data "deaths".toList = none ∨
       lookup data "chalked".toList = none ∨
       lookup data "dmz_squad_pr_kills".toList = none) →
      event_ready (some data) s = none) ∧
    (∀ (data : CounterData) (d c p : Int),
      lookup data "deaths".toList = some d →
      lookup data "chalked".toList = some c →
      lookup data "dmz_squad_pr_kills".toList = some p →
      event_ready (some data) s =
        some { s with lifetime_deaths := d, lifetime_chalked := c,
                      dmz_squad_pr := p }) := by
  refine ⟨rfl, ?_, ?_⟩
  · intro data h
    unfold event_ready
    cases hd : lookup data "deaths".toList <;>
      cases hc : lookup data "chalked".toList <;>
      cases hp : lookup data "dmz_squad_pr_kills".toList <;>
      first
        | rfl
        | (rcases h with h | h | h <;> simp_all)
  · intro data d c p hd hc hp
    simp only [event_ready]
    rw [hd, hc, hp]

/-- C7 witness: a record with all three keys loads them into the lifetime
fields; dropping the `chalked` key makes the load fail. -/
theorem c7_witness :
    (event_ready (some [("deaths".toList, 3), ("chalked".toList, 4),
        ("dmz_squad_pr_kills".toList, 21)]) initState =
      some { initState with lifetime_deaths := 3, lifetime_chalked := 4,
                            dmz_squad_pr := 21 }) ∧
    (event_ready (some [("deaths".toList, 3),
        ("dmz_squad_pr_kills".toList, 21)]) initState = none) :=
  ⟨(c7_event_ready_load initState).2.2 _ 3 4 21 (by decide) (by decide)
     (by decide),
   (c7_event_ready_load initState).2.1 _ (Or.inr (Or.inl (by decide)))⟩

/-- C3 counterexample: `CodemanTwitchBot.win` increments the session win
counter from 0 to 1 while the persistent counter record is left byte-for-byte
unchanged — the session increment is not paired with any lifetime increment
or write-through, contrary to the claim. -/
theorem c3_counterexample_win :
    (win ⟨0⟩ [("wins".toList, 7)]).1.session_wins = 1 ∧
    (win ⟨0⟩ [("wins".toList, 7)]).2.1 = [("wins".toList, 7)] := by
  decide

/-- C3 (amended): `died` and `chalked` pair each session-counter increment
with a lifetime-counter increment and a write-through of the new lifetime
value to the persistent record, while `win` increments only the session win
counter and rewrites the session-wins companion file, leaving the persistent
counter record untouched (the class has no lifetime win counter). -/
theorem c3_increment_pairing :
    (∀ (s : TwitchBotState) (data : CounterData),
      (died s data).1.session_deaths = s.session_deaths + 1 ∧
      (died s data).1.lifetime_deaths = s.lifetime_deaths + 1 ∧
      (died s data).2 = setKey data "deaths".toList (s.lifetime_deaths + 1) ∧
      lookup (died s data).2 "deaths".toList = some (s.lifetime_deaths + 1)) ∧
    (∀ (s : TwitchBotState) (data : CounterData),
      (chalked s data).1.session_chalked = s.session_chalked + 1 ∧
      (chalked s data).1.lifetime_chalked = s.lifetime_chalked + 1 ∧
      (chalked s data).2 = setKey data "chalked".toList (s.lifetime_chalked + 1) ∧
      lookup (chalked s data).2 "chalked".toList
        = some (s.lifetime_chalked + 1)) ∧
    (∀ (w : CodemanTwitchBotState) (record : CounterData),
      (win w record).1.session_wins = w.session_wins + 1 ∧
      (win w record).2.1 = record) := by
  refine ⟨fun s data => ⟨rfl, rfl, rfl, ?_⟩,
    fun s data => ⟨rfl, rfl, rfl, ?_⟩, fun w record => ⟨rfl, rfl⟩⟩
  · exact lookup_setKey data _ _
  · exact lookup_setKey data _ _

/-- C3 witness: one `died` call from the initial state with lifetime count 9
yields session count 1, lifetime count 10, and a record whose `deaths` key
reads back 10. -/
theorem c3_witness :
    (died { initState with lifetime_deaths := 9 }
      [("deaths".toList, 9)]).1.lifetime_deaths = 10 ∧
    lookup (died { initState with lifetime_deaths := 9 }
      [("deaths".toList, 9)]).2 "deaths".toList = some 10 :=
  ⟨(c3_increment_pairing.1 { initState with lifetime_deaths := 9 }
      [("deaths".toList, 9)]).2.1,
   (c3_increment_pairing.1 { initState with lifetime_deaths := 9 }
      [("deaths".toList, 9)]).2.2.2⟩

/-- C2 counterexample: the message `Hi` has first whitespace-delimited token
`hi`, one of the configured greeting words, yet the router dispatches no
handler at all — the rewrite produces `!hi` and no command named `hi` is
registered, so the `hello` handler does not run. -/
theorem c2_counterexample_hi :
    (pySplit (pyLower "Hi".toList)).head? = some "hi".toList ∧
    greetings.contains "hi".toList = true ∧
    (event_message ⟨"therealcodemanbot".toList, false⟩ initState
      ⟨false, "alice".toList, "Hi".toList⟩).dispatched = none := by
  decide

/-- C2 (amended): a non-echo message not subject to the pocus_jet rewrite
whose lowered content starts, without leading whitespace, with the token
`hello` (any original casing) is rewritten and dispatches the `hello`
handler exactly once; for the other configured greeting words the rewritten
message matches no registered command and no handler runs. -/
theorem c2_hello_dispatched (cfg : BotCfg) (s : TwitchBotState) (m : Msg)
    (ts : List (List Char)) (hecho : m.echo = false)
    (hpocus : pocus_rewrite_applies s m = false)
    (hsplit : pySplit (pyLower m.content) = "hello".toList :: ts)
    (htok : (pyLower m.content).takeWhile nonWs = "hello".toList) :
    (event_message cfg s m).dispatched = some "hello".toList := by
  have hc : greetings.contains "hello".toList = true := by decide
  simp only [event_message, hecho, Bool.false_eq_true, if_false, hpocus,
    hsplit, hc, if_true]
  simp only [handle_commands, htok]
  decide

/-- C2 witness: `HeLLo there` from a regular user dispatches the `hello`
handler. -/
theorem c2_witness :
    (event_message ⟨"therealcodemanbot".toList, false⟩ initState
      ⟨false, "bob".toList, "HeLLo there".toList⟩).dispatched
      = some "hello".toList :=
  c2_hello_dispatched _ _ _ ["there".toList] rfl (by decide) (by decide)
    (by decide)

/-- C9 counterexample: an empty message from `Pocus_Jet` with the troll flag
still unset does not raise `IndexError`: its content is first replaced by
`!troll`, and the `troll` handler is dispatched. -/
theorem c9_counterexample_pocus :
    (event_message ⟨"therealcodemanbot".toList, false⟩ initState
      ⟨false, "Pocus_Jet".toList, []⟩).indexError = false ∧
    (event_message ⟨"therealcodemanbot".toList, false⟩ initState
      ⟨false, "Pocus_Jet".toList, []⟩).dispatched = some "troll".toList := by
  decide

/-- C9 (amended): a non-echo, empty or whitespace-only message that is not
subject to the pocus_jet rewrite makes `event_message` raise `IndexError`
at `content.split()[0]` after the optional log write and before any
dispatch, with the state unchanged. -/
theorem c9_empty_message_index_error (cfg : BotCfg) (s : TwitchBotState)
    (m : Msg) (hecho : m.echo = false)
    (hws : ∀ c ∈ m.content, isWs c = true)
    (hpocus : pocus_rewrite_applies s m = false) :
    event_message cfg s m =
      ⟨s, if cfg.logging then some (m.author ++ ": ".toList ++ m.content)
          else none,
       none, true⟩ := by
  have h1 : pySplit (pyLower m.content) = [] :=
    pySplit_pyLower_all_ws m.content hws
  simp only [event_message, hecho, Bool.false_eq_true, if_false, hpocus, h1]

/-- C9 witness: a whitespace-only message from a regular user raises
`IndexError` and dispatches nothing. -/
theorem c9_witness :
    event_message ⟨"therealcodemanbot".toList, false⟩ initState
      ⟨false, "alice".toList, "   ".toList⟩ =
      ⟨initState, none, none, true⟩ := by
  have h := c9_empty_message_index_error
    ⟨"therealcodemanbot".toList, false⟩ initState
    ⟨false, "alice".toList, "   ".toList⟩ rfl (by decide) (by decide)
  simpa using h

/-- The state `event_message` leaves behind: the pocus_troll flag is set
when the pocus_jet rewrite fires, and nothing else ever changes. -/
theorem event_message_state (cfg : BotCfg) (s : TwitchBotState) (m : Msg) :
    (event_message cfg s m).state =
      if !m.echo && pocus_rewrite_applies s m
      then { s with pocus_troll := true } else s := by
  cases he : m.echo with
  | true => simp [event_message, he]
  | false =>
    by_cases hp : pocus_rewrite_applies s m
    · have hsp : pySplit (pyLower ['!', 't', 'r', 'o', 'l', 'l'])
          = [['!', 't', 'r', 'o', 'l', 'l']] := by decide
      simp [event_message, he, hp, hsp]
    · cases hsp : pySplit (pyLower m.content) <;>
        simp [event_message, he, hp, hsp]

/-- The pocus_jet rewrite never fires once the flag is set, and processing
any message list from a flag-set state keeps the flag set. -/
theorem countPocus_of_troll (cfg : BotCfg) :
    ∀ (ms : List Msg) (s : TwitchBotState), s.pocus_troll = true →
      countPocus cfg s ms = 0 ∧ (runState cfg s ms).pocus_troll = true
  | [], s, h => ⟨rfl, h⟩
  | m :: ms, s, h => by
    have happ : pocus_rewrite_applies s m = false := by
      simp [pocus_rewrite_applies, h]
    have hst : (event_message cfg s m).state = s := by
      rw [event_message_state, happ]; simp
    have ih := countPocus_of_troll cfg ms (event_message cfg s m).state
      (by rw [hst]; exact h)
    simp only [countPocus, runState, happ, Bool.and_false, if_false]
    simpa using ih

/-- From any state, at most one message of a run gets the pocus rewrite. -/
theorem countPocus_le_one (cfg : BotCfg) :
    ∀ (ms : List Msg) (s : TwitchBotState), countPocus cfg s ms ≤ 1
  | [], _ => Nat.zero_le 1
  | m :: ms, s => by
    by_cases hfire : (!m.echo && pocus_rewrite_applies s m) = true
    · have hst : (event_message cfg s m).state = { s with pocus_troll := true } := by
        rw [event_message_state, hfire]; simp
      have h0 := (countPocus_of_troll cfg ms (event_message cfg s m).state
        (by rw [hst])).1
      simp only [countPocus, hfire, if_true, h0]
      omega
    · have hfire' : (!m.echo && pocus_rewrite_applies s m) = false :=
        Bool.not_eq_true _ ▸ Bool.eq_false_iff.mpr hfire
      have ih := countPocus_le_one cfg ms (event_message cfg s m).state
      simp only [countPocus, hfire', Bool.false_eq_true, if_false,
        Nat.zero_add]
      exact ih

/-- C10: (a) starting from the initial state, at most one message per run
has its content replaced by `!troll`; (b) once `pocus_troll` is set it stays
set and the rewrite never fires again; (c) the first non-echo message from
an author whose lowered name contains `pocus_jet` has its content replaced
by `!troll` before the log write, and the `troll` handler is dispatched. -/
theorem c10_pocus_rewrite_once (cfg : BotCfg) :
    (∀ ms : List Msg, countPocus cfg initState ms ≤ 1) ∧
    (∀ (ms : List Msg) (s : TwitchBotState), s.pocus_troll = true →
      countPocus cfg s ms = 0 ∧ (runState cfg s ms).pocus_troll = true) ∧
    (∀ (s : TwitchBotState) (m : Msg), s.pocus_troll = false →
      m.echo = false →
      isSubstring "pocus_jet".toList (pyLower m.author) = true →
      event_message cfg s m =
        ⟨{ s with pocus_troll := true },
         if cfg.logging then some (m.author ++ ": ".toList ++ "!troll".toList)
         else none,
         some "troll".toList, false⟩) := by
  refine ⟨fun ms => countPocus_le_one cfg ms initState,
    fun ms s h => countPocus_of_troll cfg ms s h, ?_⟩
  intro s m hflag hecho hsub
  have happ : pocus_rewrite_applies s m = true := by
    simp only [pocus_rewrite_applies, hflag, Bool.not_false, Bool.true_and]
    exact hsub
  have hsp : pySplit (pyLower ['!', 't', 'r', 'o', 'l', 'l'])
      = [['!', 't', 'r', 'o', 'l', 'l']] := by decide
  have hg : ['!', 't', 'r', 'o', 'l', 'l'] ∉ greetings := by decide
  have hlow : pyLower ['!', 't', 'r', 'o', 'l', 'l']
      = ['!', 't', 'r', 'o', 'l', 'l'] := by decide
  have hat : ∀ l : List Char,
      ¬('@' :: l <+: pyLower ['!', 't', 'r', 'o', 'l', 'l']) := by
    intro l h
    rw [hlow, List.cons_prefix_cons] at h
    exact absurd h.1 (by decide)
  have hhash :
      ¬(['#', 't', 'r', 'e', 'a', 't', 's', 'f', 'o', 'r', 'g', 'u', 's']
        <+: pyLower ['!', 't', 'r', 'o', 'l', 'l']) := by
    rw [hlow]; decide
  have hdisp : handle_commands ['!', 't', 'r', 'o', 'l', 'l']
      = some ['t', 'r', 'o', 'l', 'l'] := by decide
  simp [event_message, hecho, happ, hsp, hg, hat, hhash, hdisp]

/-- C10 witness: the first message from `Pocus_Jet`, with logging on, is
logged as `!troll` and dispatches the `troll` handler, setting the flag. -/
theorem c10_witness :
    event_message ⟨"therealcodemanbot".toList, true⟩ initState
      ⟨false, "Pocus_Jet".toList, "hello everyone".toList⟩ =
      ⟨{ initState with pocus_troll := true },
       some ("Pocus_Jet".toList ++ ": ".toList ++ "!troll".toList),
       some "troll".toList, false⟩ := by
  have h := (c10_pocus_rewrite_once ⟨"therealcodemanbot".toList, true⟩).2.2
    initState ⟨false, "Pocus_Jet".toList, "hello everyone".toList⟩
    rfl rfl (by decide)
  simpa using h

/-- Every successful raffle trigger recorded after a trigger at `t0` lies at
least the full cooldown window after `t0`, provided each invocation's second
clock read is not before its first. -/
theorem raffleTriggers_lb :
    ∀ (invs : List (Int × Int)) (s : TwitchBotState) (t0 : Int),
      s.recent_raffle = true → s.raffle_time = some t0 →
      (∀ p ∈ invs, p.1 ≤ p.2) →
      ∀ t ∈ raffleTriggers s invs, t0 + raffle_cooldown_time * 60 ≤ t
  | [], _, _, _, _, _ => by simp [raffleTriggers]
  | (tnow, tset) :: rest, s, t0, hr, ht, hwf => by
    have hwf' : ∀ p ∈ rest, p.1 ≤ p.2 :=
      fun p hp => hwf p (List.mem_cons_of_mem _ hp)
    have hts : tnow ≤ tset := hwf (tnow, tset) (List.mem_cons_self _ _)
    by_cases hel : raffle_cooldown_time ≤ Int.fdiv (tnow - t0) 60
    · have h900 : raffle_cooldown_time * 60 ≤ tnow - t0 := cooldown_seconds hel
      have hstep : raffleTriggers s ((tnow, tset) :: rest) =
          tset :: raffleTriggers
            { s with recent_raffle := true, raffle_time := some tset } rest := by
        simp [raffleTriggers, raffle, hr, ht, hel]
      rw [hstep]
      intro t htmem
      have hc15 : raffle_cooldown_time = 15 := rfl
      rcases List.mem_cons.mp htmem with rfl | hmem
      · omega
      · have := raffleTriggers_lb rest _ tset rfl rfl hwf' t hmem
        omega
    · have hstep : raffleTriggers s ((tnow, tset) :: rest) =
          raffleTriggers s rest := by
        simp [raffleTriggers, raffle, hr, ht, hel]
      rw [hstep]
      exact raffleTriggers_lb rest s t0 hr ht hwf'

/-- From a cooling-down state, the recorded successful trigger times are
pairwise separated by at least the cooldown window. -/
theorem raffleTriggers_pairwise :
    ∀ (invs : List (Int × Int)) (s : TwitchBotState) (t0 : Int),
      s.recent_raffle = true → s.raffle_time = some t0 →
      (∀ p ∈ invs, p.1 ≤ p.2) →
      (raffleTriggers s invs).Pairwise
        (fun t1 t2 => t1 + raffle_cooldown_time * 60 ≤ t2)
  | [], _, _, _, _, _ => by simp [raffleTriggers]
  | (tnow, tset) :: rest, s, t0, hr, ht, hwf => by
    have hwf' : ∀ p ∈ rest, p.1 ≤ p.2 :=
      fun p hp => hwf p (List.mem_cons_of_mem _ hp)
    by_cases hel : raffle_cooldown_time ≤ Int.fdiv (tnow - t0) 60
    · have hstep : raffleTriggers s ((tnow, tset) :: rest) =
          tset :: raffleTriggers
            { s with recent_raffle := true, raffle_time := some tset } rest := by
        simp [raffleTriggers, raffle, hr, ht, hel]
      rw [hstep]
      exact List.Pairwise.cons
        (fun t hmem => raffleTriggers_lb rest _ tset rfl rfl hwf' t hmem)
        (raffleTriggers_pairwise rest _ tset rfl rfl hwf')
    · have hstep : raffleTriggers s ((tnow, tset) :: rest) =
          raffleTriggers s rest := by
        simp [raffleTriggers, raffle, hr, ht, hel]
      rw [hstep]
      exact raffleTriggers_pairwise rest s t0 hr ht hwf'

/-- C5: in any process run (state starting at `initState`), the recorded
times of successful raffle triggers are pairwise at least
`raffle_cooldown_time * 60` seconds apart, assuming each invocation's second
`datetime.now()` read is not before its first. -/
theorem c5_successful_triggers_spaced (invs : List (Int × Int))
    (hwf : ∀ p ∈ invs, p.1 ≤ p.2) :
    (raffleTriggers initState invs).Pairwise
      (fun t1 t2 => t1 + raffle_cooldown_time * 60 ≤ t2) := by
  cases invs with
  | nil => simp [raffleTriggers]
  | cons p rest =>
    obtain ⟨tnow, tset⟩ := p
    have hwf' : ∀ q ∈ rest, q.1 ≤ q.2 :=
      fun q hq => hwf q (List.mem_cons_of_mem _ hq)
    have hstep : raffleTriggers initState ((tnow, tset) :: rest) =
        tset :: raffleTriggers
          { initState with recent_raffle := true, raffle_time := some tset }
          rest := by
      simp [raffleTriggers, raffle, initState]
    rw [hstep]
    exact List.Pairwise.cons
      (fun t hmem => raffleTriggers_lb rest _ tset rfl rfl hwf' t hmem)
      (raffleTriggers_pairwise rest _ tset rfl rfl hwf')

/-- C5 witness: invocations at 0s, 600s (rejected, inside the window) and
960s/961s (accepted) record triggers at 0 and 961, which are at least 900
seconds apart. -/
theorem c5_witness :
    (raffleTriggers initState [(0, 0), (600, 600), (960, 961)]).Pairwise
      (fun t1 t2 => t1 + raffle_cooldown_time * 60 ≤ t2) :=
  c5_successful_triggers_spaced [(0, 0), (600, 600), (960, 961)] (by decide)

end Codemanbot
